import Mathlib

/-!
Shallow embedding of the audio pacing / ring-buffer engine of `src/emulator/audio.ts`
(class `N64AudioSystem`).  The engine state is the set of mutable fields of the class
that the audio callback reads or writes; one invocation of the callback
`onAudioProcess` is a pure function of that state together with a per-callback
environment describing the external world during that invocation: which module
accessors exist, the values returned by the write-cursor polls, the heap contents
seen through the sample-buffer view, and the current time in milliseconds.
All counters and cursors are embedded as `Nat`, timestamps and normalized sample
arithmetic as `Rat`, and the tanh soft-clip output as a relation over `Real`.
-/

namespace N64Audio

/-- Source constant `AUDIO_BUFFER_SIZE = 1024` (samples per audio callback). -/
def AUDIO_BUFFER_SIZE : Nat := 1024

/-- Source constant `SAMPLE_RATE = 44100`. -/
def SAMPLE_RATE : Nat := 44100

/-- Source constant `RING_BUFFER_SIZE = 64000` (ring buffer capacity in samples). -/
def RING_BUFFER_SIZE : Nat := 64000

/-- One slot of the output channel arrays.  The callback either writes a literal `0`
(silence: the back-off branch and the underrun branch), or the value obtained by
reading the raw signed-16-bit sample `x` from the ring buffer and shaping it
(normalization by 32768 and conditional tanh saturation), or - when the read goes
through a zero-length (detached) view - the JS value `undefined / 32768.0 = NaN`,
modelled by the distinguished constructor `nanRead`. -/
inductive Sample where
  | silence : Sample
  | raw (x : Int) : Sample
  | nanRead : Sample
deriving DecidableEq, Repr

/-- Normalization of a signed 16-bit sample: `x / 32768.0` (source line
`this.audioBufferResampled[...] / 32768.0`). -/
def normQ (x : Int) : Rat := (x : Rat) / 32768

/-- The soft-clip trigger of the source: `Math.abs(left) > 0.95` on the normalized
value.  On a `NaN` read the JS comparison is false, so only `raw` samples clip. -/
def Sample.clipFlag : Sample → Bool
  | .raw x => decide ((0.95 : Rat) < |normQ x|)
  | _ => false

/-- The real number the callback stores into the output channel for a given slot:
silence is literally `0`; a consumed raw sample `x` is normalized and, when its
magnitude exceeds `0.95`, replaced by `Math.tanh(left * 0.9)`; a read through a
detached view produces `NaN`, which is no real number (the relation is empty). -/
def Sample.emits : Sample → Real → Prop
  | .silence, y => y = 0
  | .raw x, y =>
      if (0.95 : Rat) < |normQ x| then y = Real.tanh (((normQ x : Rat) : Real) * 0.9)
      else y = ((normQ x : Rat) : Real)
  | .nanRead, _ => False

/-- The mutable fields of `N64AudioSystem` touched by the audio path.  The borrowed
`Int16Array` view `audioBufferResampled` is represented by its element length
(`none` = the JS field is `null`; `some 0` = a detached, zero-length view). -/
structure AudioState where
  audioWritePosition : Nat
  audioReadPosition : Nat
  audioThreadLock : Bool
  audioBackOffCounter : Nat
  audioSkipCount : Nat
  clipCount : Nat
  frameCallCount : Nat
  lastFrameReset : Rat
  gameFps : Nat
  lastAudioTime : Rat
  audioBufferResampled : Option Nat
deriving DecidableEq, Repr

/-- The external world during one callback invocation: which optional module
accessors exist (`this.module?._runMainLoop`, `_neilGetAudioWritePosition`,
`_neilGetSoundBufferResampledAddress`, `HEAP16`), the values the write-cursor
accessor returns at its first and second poll, the heap contents visible through
an attached view at each ring-buffer index, and `performance.now()`. -/
structure CallbackEnv where
  hasRunMainLoop : Bool
  hasGetWritePos : Bool
  hasGetBufAddr : Bool
  hasHeap16 : Bool
  wp1 : Nat
  wp2 : Nat
  mem : Nat → Int
  now : Rat

/-- `getBufferFillRatio` of the source: forward distance from read to write cursor,
wrap-corrected, divided by the capacity. -/
def getBufferFill (C : Nat) (s : AudioState) : Rat :=
  let distance : Int := (s.audioWritePosition : Int) - (s.audioReadPosition : Int)
  let distance : Int := if distance < 0 then distance + (C : Int) else distance
  (distance : Rat) / (C : Rat)

/-- The read-cursor advance of the consumption loop:
`audioReadPosition += 2; if (audioReadPosition >= RING_BUFFER_SIZE) audioReadPosition = 0`. -/
def advanceRead (C rp : Nat) : Nat :=
  if C ≤ rp + 2 then 0 else rp + 2

/-- Indexing `view[i]` on an `Int16Array` of length `len` over the heap: in bounds
it yields the raw sample, out of bounds (in particular through a zero-length
detached view) it yields `undefined`, i.e. a `NaN` after normalization. -/
def readView (view : Option Nat) (mem : Nat → Int) (i : Nat) : Sample :=
  match view with
  | none => Sample.nanRead
  | some len => if i < len then Sample.raw (mem i) else Sample.nanRead

/-- The loop-local state of the consumption loop of `onAudioProcess`. -/
structure ConsumeState where
  rp : Nat
  skip : Nat
  clip : Nat
  hadUnderrun : Bool
deriving DecidableEq, Repr

/-- One iteration of the consumption loop: if the stored write position differs
from the read position and the view is non-null, read the stereo pair, count
soft-clip triggers, and advance the read cursor by 2 with wrap; otherwise emit
silence, count a skip, and record the underrun. -/
def consumeOne (C wp : Nat) (view : Option Nat) (mem : Nat → Int)
    (cs : ConsumeState) : ConsumeState × (Sample × Sample) :=
  if wp ≠ cs.rp ∧ view.isSome = true then
    let l := readView view mem cs.rp
    let r := readView view mem (cs.rp + 1)
    let clipAdd : Nat := (if l.clipFlag then 1 else 0) + (if r.clipFlag then 1 else 0)
    ({ cs with rp := advanceRead C cs.rp, clip := cs.clip + clipAdd }, (l, r))
  else
    ({ cs with skip := cs.skip + 1, hadUnderrun := true }, (Sample.silence, Sample.silence))

/-- The consumption loop `for (let sample = 0; sample < bufferSize; sample++)`,
returning the final loop state and the list of emitted stereo frames in order. -/
def consumeLoop (C wp : Nat) (view : Option Nat) (mem : Nat → Int) :
    Nat → ConsumeState → ConsumeState × List (Sample × Sample)
  | 0, cs => (cs, [])
  | n + 1, cs =>
    let fst := consumeOne C wp view mem cs
    let rest := consumeLoop C wp view mem n fst.1
    (rest.1, fst.2 :: rest.2)

/-- The value of one callback invocation: the state on return, the two output
channel arrays as written (empty when the invocation was dropped by the
re-entrancy guard, which leaves the arrays untouched), and the number of
invocations of the core step function `_runMainLoop` performed. -/
structure CallbackResult where
  state : AudioState
  outL : List Sample
  outR : List Sample
  steps : Nat

/-- The 1-second FPS window block: when more than 1000 ms have passed since
`lastFrameReset`, store the frame count into `gameFps`, zero the counter and
restart the window. -/
def fpsWindow (now : Rat) (s : AudioState) : AudioState :=
  if 1000 < now - s.lastFrameReset then
    { s with gameFps := s.frameCallCount, frameCallCount := 0, lastFrameReset := now }
  else s

/-- One guarded invocation of the core step function
(`if (this.module?._runMainLoop) { this.module._runMainLoop(); this.frameCallCount++; }`),
returning the updated state and the number of step invocations (0 or 1). -/
def coreStep (hasRunMainLoop : Bool) (s : AudioState) : AudioState × Nat :=
  if hasRunMainLoop then ({ s with frameCallCount := s.frameCallCount + 1 }, 1)
  else (s, 0)

/-- One guarded poll of the core write-cursor accessor
(`if (this.module?._neilGetAudioWritePosition) { this.audioWritePosition = ... }`). -/
def pollWrite (hasGetWritePos : Bool) (wp : Nat) (s : AudioState) : AudioState :=
  if hasGetWritePos then { s with audioWritePosition := wp } else s

/-- The catch-up block: one extra step and re-poll, only when the fill level
snapshot is below 0.15 and fewer than 90 steps have run in the current window. -/
def catchupStep (bufferFill : Rat) (env : CallbackEnv) (s : AudioState) :
    AudioState × Nat :=
  if bufferFill < (0.15 : Rat) ∧ s.frameCallCount < 90 then
    let pa := coreStep env.hasRunMainLoop s
    (pollWrite env.hasGetWritePos env.wp2 pa.1, pa.2)
  else (s, 0)

/-- The detached-view check: a non-null zero-length view is replaced by a fresh
view over the heap when both the address accessor and `HEAP16` exist. -/
def reacquire (C : Nat) (env : CallbackEnv) (s : AudioState) : AudioState :=
  if s.audioBufferResampled = some 0 ∧ env.hasGetBufAddr = true ∧
      env.hasHeap16 = true then
    { s with audioBufferResampled := some C }
  else s

/-- After the consumption loop: if any underrun occurred and the back-off counter
is zero, arm it to 2 (skip the next two callbacks). -/
def armBackoff (hadUnderrun : Bool) (s : AudioState) : AudioState :=
  if hadUnderrun = true ∧ s.audioBackOffCounter = 0 then
    { s with audioBackOffCounter := 2 }
  else s

/-- The 10-second stats block: when more than 10000 ms have passed since
`lastAudioTime`, the skip and clip counters are zeroed and the window restarts
(the conditional `console.warn` inside has no state effect). -/
def statsWindow (now : Rat) (s : AudioState) : AudioState :=
  if 10000 < now - s.lastAudioTime then
    { s with audioSkipCount := 0, clipCount := 0, lastAudioTime := now }
  else s

/-- `onAudioProcess` of the source, with capacity `C` (the program instantiates
`C = RING_BUFFER_SIZE`) and `bufferSize` from the configuration.  Order of
effects follows the source: re-entrancy guard; back-off branch (silence,
decrement, return); fill-level snapshot; 1-second FPS window reset; baseline
step; write-cursor poll; conditional catch-up step (fill below 0.15 and fewer
than 90 steps this window) with re-poll; detached-view re-acquisition; the
consumption loop; back-off arming on underrun; the 10-second stats window reset;
release of the guard. -/
def onAudioProcess (C bufferSize : Nat) (env : CallbackEnv) (s : AudioState) :
    CallbackResult :=
  if s.audioThreadLock = true then
    { state := s, outL := [], outR := [], steps := 0 }
  else
    let s1 := { s with audioThreadLock := true }
    if 0 < s1.audioBackOffCounter then
      { state := { s1 with audioBackOffCounter := s1.audioBackOffCounter - 1,
                           audioThreadLock := false },
        outL := List.replicate bufferSize Sample.silence,
        outR := List.replicate bufferSize Sample.silence,
        steps := 0 }
    else
      let bufferFill : Rat := getBufferFill C s1
      let s2 : AudioState := fpsWindow env.now s1
      let p3 : AudioState × Nat := coreStep env.hasRunMainLoop s2
      let s4 : AudioState := pollWrite env.hasGetWritePos env.wp1 p3.1
      let p5 : AudioState × Nat := catchupStep bufferFill env s4
      let s6 : AudioState := reacquire C env p5.1
      let lp : ConsumeState × List (Sample × Sample) :=
        consumeLoop C s6.audioWritePosition s6.audioBufferResampled env.mem bufferSize
        { rp := s6.audioReadPosition, skip := s6.audioSkipCount,
          clip := s6.clipCount, hadUnderrun := false }
      let s7 : AudioState :=
        { s6 with audioReadPosition := lp.1.rp, audioSkipCount := lp.1.skip,
                  clipCount := lp.1.clip }
      let s8 : AudioState := armBackoff lp.1.hadUnderrun s7
      let s9 : AudioState := statsWindow env.now s8
      { state := { s9 with audioThreadLock := false },
        outL := lp.2.map Prod.fst,
        outR := lp.2.map Prod.snd,
        steps := p3.2 + p5.2 }

/-- A sequence of callback invocations: final state and total number of core step
invocations across the sequence. -/
def runCallbacks (C bufferSize : Nat) (s : AudioState) :
    List CallbackEnv → AudioState × Nat
  | [] => (s, 0)
  | env :: rest =>
    let r := onAudioProcess C bufferSize env s
    let tail := runCallbacks C bufferSize r.state rest
    (tail.1, r.steps + tail.2)

/-- Outcome of `initialize`: the sample-buffer view field afterwards and whether
the `_neilGetSoundBufferResampledAddress not available` warning was logged.  The
source binds the view inside `if (module._neilGetSoundBufferResampledAddress)`
and merely `console.warn`s in the `else`; no path throws, so both branches are
`Except.ok`. -/
structure InitOutcome where
  audioBufferResampled : Option Nat
  warned : Bool
deriving DecidableEq, Repr

/-- `initialize` of the source, restricted to the buffer-binding step the claims
are about, as a fallible computation (a thrown error would be `Except.error`). -/
def initializeModel (hasSoundBufferAddr : Bool) : Except Unit InitOutcome :=
  if hasSoundBufferAddr then
    Except.ok { audioBufferResampled := some RING_BUFFER_SIZE, warned := false }
  else
    Except.ok { audioBufferResampled := none, warned := true }

/-- The volume-related fields: whether `this.gainNode` is non-null, the gain
actually applied (`gainNode.gain.value`), and `this.config.volume`. -/
structure GainState where
  hasGainNode : Bool
  gainValue : Rat
  configVolume : Rat
deriving DecidableEq, Repr

/-- `setVolume` of the source: inside `if (this.gainNode)`, the applied gain is
`Math.max(0, Math.min(1, volume))` while `config.volume` stores the raw argument. -/
def setVolume (s : GainState) (volume : Rat) : GainState :=
  if s.hasGainNode = true then
    { s with gainValue := max 0 (min 1 volume), configVolume := volume }
  else s

/-- `getVolume` of the source: returns `this.config.volume`. -/
def getVolume (s : GainState) : Rat := s.configVolume

/-! Concrete states and environments used by witness and counterexample theorems. -/

/-- A concrete engine state: idle, cursors at zero, attached full-size view. -/
def baseState : AudioState :=
  { audioWritePosition := 0, audioReadPosition := 0, audioThreadLock := false,
    audioBackOffCounter := 0, audioSkipCount := 0, clipCount := 0,
    frameCallCount := 0, lastFrameReset := 0, gameFps := 0, lastAudioTime := 0,
    audioBufferResampled := some RING_BUFFER_SIZE }

/-- A concrete callback environment: all module accessors present, both
write-cursor polls returning 0, zero heap, time 5 ms. -/
def baseEnv : CallbackEnv :=
  { hasRunMainLoop := true, hasGetWritePos := true, hasGetBufAddr := true,
    hasHeap16 := true, wp1 := 0, wp2 := 0, mem := fun _ => 0, now := 5 }

/-- A concrete environment whose first buffered sample is full-scale 32767. -/
def fullScaleEnv : CallbackEnv :=
  { baseEnv with wp1 := 10, wp2 := 10, mem := fun i => if i = 0 then 32767 else 0 }

/-- A concrete environment with data two frames ahead and constant sample 7. -/
def sampleSevenEnv : CallbackEnv :=
  { baseEnv with wp1 := 4, wp2 := 4, mem := fun _ => 7 }

/-- A concrete engine state holding a detached (zero-length) view while the
stored write cursor is ahead of the read cursor. -/
def detachedState : AudioState :=
  { baseState with audioBufferResampled := some 0, audioWritePosition := 4 }

/-- The k-th callback environment of the sustained-low-fill scenario: all
accessors present, both polls returning `2k + 4` (the core stays two stereo
frames ahead of the consumer), silent heap, time `k + 1` ms (all callbacks fall
inside one 1-second accounting window). -/
def c3env (k : Nat) : CallbackEnv :=
  { hasRunMainLoop := true, hasGetWritePos := true, hasGetBufAddr := true,
    hasHeap16 := true, wp1 := 2 * k + 4, wp2 := 2 * k + 4, mem := fun _ => 0,
    now := (k : Rat) + 1 }

/-- `n` consecutive environments of the sustained-low-fill scenario starting at
index `start`. -/
def c3envs : Nat → Nat → List CallbackEnv
  | _, 0 => []
  | start, n + 1 => c3env start :: c3envs (start + 1) n

/-- The engine state before the k-th callback of the sustained-low-fill
scenario: cursors two samples apart (fill `2/64000 < 0.15`), `2k` steps taken
in the current window, no back-off, window clocks at zero. -/
def C3Inv (k : Nat) (s : AudioState) : Prop :=
  s.audioThreadLock = false ∧ s.audioBackOffCounter = 0 ∧
  s.frameCallCount = 2 * k ∧ s.audioReadPosition = 2 * k ∧
  s.audioWritePosition = 2 * k + 2 ∧
  s.audioBufferResampled = some RING_BUFFER_SIZE ∧
  s.lastFrameReset = 0 ∧ s.lastAudioTime = 0

/-- The initial state of the sustained-low-fill scenario. -/
def c3start : AudioState :=
  { baseState with audioWritePosition := 2 }

/-- The write position the consumption loop runs against, assuming both polls of
the write-cursor accessor return the same value `wp2`. -/
def midWritePos (env : CallbackEnv) (s : AudioState) : Nat :=
  if env.hasGetWritePos = true then env.wp2 else s.audioWritePosition

/-- The view the consumption loop reads through (after the detachment check). -/
def midView (C : Nat) (env : CallbackEnv) (s : AudioState) : Option Nat :=
  if s.audioBufferResampled = some 0 ∧ env.hasGetBufAddr = true ∧
      env.hasHeap16 = true then some C
  else s.audioBufferResampled

/-- The run of the consumption loop of a NORMAL-state callback. -/
def loopRun (C bs : Nat) (env : CallbackEnv) (s : AudioState) :
    ConsumeState × List (Sample × Sample) :=
  consumeLoop C (midWritePos env s) (midView C env s) env.mem bs
    { rp := s.audioReadPosition, skip := s.audioSkipCount, clip := s.clipCount,
      hadUnderrun := false }

/-! ## Cursor invariants -/

/-- Both cursors lie inside the ring buffer. -/
def CursorInv (C : Nat) (s : AudioState) : Prop :=
  s.audioWritePosition < C ∧ s.audioReadPosition < C

instance (C : Nat) (s : AudioState) : Decidable (CursorInv C s) := by
  unfold CursorInv
  infer_instance

/-- The buffer content of the spec round-trip scenario (capacity 8). -/
def c5mem : Nat → Int := fun i =>
  ([100, -100, 200, -200, 300, -300, 400, -400] : List Int).getD i 0


/-! ## Helper lemmas about the phases of the callback -/

theorem fpsWindow_eq_of_le {t : Rat} {s : AudioState}
    (h : t ≤ s.lastFrameReset + 1000) : fpsWindow t s = s := by
  unfold fpsWindow
  rw [if_neg]
  intro hlt
  linarith

@[simp] theorem fpsWindow_wp (t : Rat) (s : AudioState) :
    (fpsWindow t s).audioWritePosition = s.audioWritePosition := by
  unfold fpsWindow; split_ifs <;> rfl

@[simp] theorem fpsWindow_rp (t : Rat) (s : AudioState) :
    (fpsWindow t s).audioReadPosition = s.audioReadPosition := by
  unfold fpsWindow; split_ifs <;> rfl

@[simp] theorem fpsWindow_skip (t : Rat) (s : AudioState) :
    (fpsWindow t s).audioSkipCount = s.audioSkipCount := by
  unfold fpsWindow; split_ifs <;> rfl

@[simp] theorem fpsWindow_clip (t : Rat) (s : AudioState) :
    (fpsWindow t s).clipCount = s.clipCount := by
  unfold fpsWindow; split_ifs <;> rfl

@[simp] theorem fpsWindow_backoff (t : Rat) (s : AudioState) :
    (fpsWindow t s).audioBackOffCounter = s.audioBackOffCounter := by
  unfold fpsWindow; split_ifs <;> rfl

@[simp] theorem fpsWindow_view (t : Rat) (s : AudioState) :
    (fpsWindow t s).audioBufferResampled = s.audioBufferResampled := by
  unfold fpsWindow; split_ifs <;> rfl

@[simp] theorem fpsWindow_lat (t : Rat) (s : AudioState) :
    (fpsWindow t s).lastAudioTime = s.lastAudioTime := by
  unfold fpsWindow; split_ifs <;> rfl

@[simp] theorem fpsWindow_lock (t : Rat) (s : AudioState) :
    (fpsWindow t s).audioThreadLock = s.audioThreadLock := by
  unfold fpsWindow; split_ifs <;> rfl

@[simp] theorem coreStep_wp (b : Bool) (s : AudioState) :
    (coreStep b s).1.audioWritePosition = s.audioWritePosition := by
  unfold coreStep; split_ifs <;> rfl

@[simp] theorem coreStep_rp (b : Bool) (s : AudioState) :
    (coreStep b s).1.audioReadPosition = s.audioReadPosition := by
  unfold coreStep; split_ifs <;> rfl

@[simp] theorem coreStep_skip (b : Bool) (s : AudioState) :
    (coreStep b s).1.audioSkipCount = s.audioSkipCount := by
  unfold coreStep; split_ifs <;> rfl

@[simp] theorem coreStep_clip (b : Bool) (s : AudioState) :
    (coreStep b s).1.clipCount = s.clipCount := by
  unfold coreStep; split_ifs <;> rfl

@[simp] theorem coreStep_backoff (b : Bool) (s : AudioState) :
    (coreStep b s).1.audioBackOffCounter = s.audioBackOffCounter := by
  unfold coreStep; split_ifs <;> rfl

@[simp] theorem coreStep_view (b : Bool) (s : AudioState) :
    (coreStep b s).1.audioBufferResampled = s.audioBufferResampled := by
  unfold coreStep; split_ifs <;> rfl

@[simp] theorem coreStep_lat (b : Bool) (s : AudioState) :
    (coreStep b s).1.lastAudioTime = s.lastAudioTime := by
  unfold coreStep; split_ifs <;> rfl

@[simp] theorem coreStep_lfr (b : Bool) (s : AudioState) :
    (coreStep b s).1.lastFrameReset = s.lastFrameReset := by
  unfold coreStep; split_ifs <;> rfl

@[simp] theorem coreStep_lock (b : Bool) (s : AudioState) :
    (coreStep b s).1.audioThreadLock = s.audioThreadLock := by
  unfold coreStep; split_ifs <;> rfl

theorem coreStep_fcc (b : Bool) (s : AudioState) :
    (coreStep b s).1.frameCallCount = s.frameCallCount + (coreStep b s).2 := by
  unfold coreStep; split_ifs <;> rfl

theorem coreStep_snd_le (b : Bool) (s : AudioState) : (coreStep b s).2 ≤ 1 := by
  unfold coreStep; split_ifs <;> simp

@[simp] theorem pollWrite_rp (b : Bool) (wp : Nat) (s : AudioState) :
    (pollWrite b wp s).audioReadPosition = s.audioReadPosition := by
  unfold pollWrite; split_ifs <;> rfl

@[simp] theorem pollWrite_skip (b : Bool) (wp : Nat) (s : AudioState) :
    (pollWrite b wp s).audioSkipCount = s.audioSkipCount := by
  unfold pollWrite; split_ifs <;> rfl

@[simp] theorem pollWrite_clip (b : Bool) (wp : Nat) (s : AudioState) :
    (pollWrite b wp s).clipCount = s.clipCount := by
  unfold pollWrite; split_ifs <;> rfl

@[simp] theorem pollWrite_backoff (b : Bool) (wp : Nat) (s : AudioState) :
    (pollWrite b wp s).audioBackOffCounter = s.audioBackOffCounter := by
  unfold pollWrite; split_ifs <;> rfl

@[simp] theorem pollWrite_view (b : Bool) (wp : Nat) (s : AudioState) :
    (pollWrite b wp s).audioBufferResampled = s.audioBufferResampled := by
  unfold pollWrite; split_ifs <;> rfl

@[simp] theorem pollWrite_lat (b : Bool) (wp : Nat) (s : AudioState) :
    (pollWrite b wp s).lastAudioTime = s.lastAudioTime := by
  unfold pollWrite; split_ifs <;> rfl

@[simp] theorem pollWrite_lfr (b : Bool) (wp : Nat) (s : AudioState) :
    (pollWrite b wp s).lastFrameReset = s.lastFrameReset := by
  unfold pollWrite; split_ifs <;> rfl

@[simp] theorem pollWrite_fcc (b : Bool) (wp : Nat) (s : AudioState) :
    (pollWrite b wp s).frameCallCount = s.frameCallCount := by
  unfold pollWrite; split_ifs <;> rfl

@[simp] theorem pollWrite_lock (b : Bool) (wp : Nat) (s : AudioState) :
    (pollWrite b wp s).audioThreadLock = s.audioThreadLock := by
  unfold pollWrite; split_ifs <;> rfl

theorem pollWrite_wp (b : Bool) (wp : Nat) (s : AudioState) :
    (pollWrite b wp s).audioWritePosition =
      if b = true then wp else s.audioWritePosition := by
  unfold pollWrite; split_ifs <;> simp_all

@[simp] theorem catchupStep_rp (f : Rat) (e : CallbackEnv) (s : AudioState) :
    (catchupStep f e s).1.audioReadPosition = s.audioReadPosition := by
  unfold catchupStep; split_ifs <;> simp

@[simp] theorem catchupStep_skip (f : Rat) (e : CallbackEnv) (s : AudioState) :
    (catchupStep f e s).1.audioSkipCount = s.audioSkipCount := by
  unfold catchupStep; split_ifs <;> simp

@[simp] theorem catchupStep_clip (f : Rat) (e : CallbackEnv) (s : AudioState) :
    (catchupStep f e s).1.clipCount = s.clipCount := by
  unfold catchupStep; split_ifs <;> simp

@[simp] theorem catchupStep_backoff (f : Rat) (e : CallbackEnv) (s : AudioState) :
    (catchupStep f e s).1.audioBackOffCounter = s.audioBackOffCounter := by
  unfold catchupStep; split_ifs <;> simp

@[simp] theorem catchupStep_view (f : Rat) (e : CallbackEnv) (s : AudioState) :
    (catchupStep f e s).1.audioBufferResampled = s.audioBufferResampled := by
  unfold catchupStep; split_ifs <;> simp

@[simp] theorem catchupStep_lat (f : Rat) (e : CallbackEnv) (s : AudioState) :
    (catchupStep f e s).1.lastAudioTime = s.lastAudioTime := by
  unfold catchupStep; split_ifs <;> simp

@[simp] theorem catchupStep_lfr (f : Rat) (e : CallbackEnv) (s : AudioState) :
    (catchupStep f e s).1.lastFrameReset = s.lastFrameReset := by
  unfold catchupStep; split_ifs <;> simp

@[simp] theorem catchupStep_lock (f : Rat) (e : CallbackEnv) (s : AudioState) :
    (catchupStep f e s).1.audioThreadLock = s.audioThreadLock := by
  unfold catchupStep; split_ifs <;> simp

theorem catchupStep_fcc (f : Rat) (e : CallbackEnv) (s : AudioState) :
    (catchupStep f e s).1.frameCallCount = s.frameCallCount + (catchupStep f e s).2 := by
  unfold catchupStep; split_ifs <;> simp [coreStep_fcc]

theorem catchupStep_snd_le (f : Rat) (e : CallbackEnv) (s : AudioState) :
    (catchupStep f e s).2 ≤ 1 := by
  unfold catchupStep; split_ifs <;> simp [coreStep_snd_le]

theorem catchupStep_snd_pos (f : Rat) (e : CallbackEnv) (s : AudioState)
    (h : 0 < (catchupStep f e s).2) : s.frameCallCount < 90 := by
  revert h
  unfold catchupStep; split_ifs with hc
  · intro _; exact hc.2
  · intro h; simp at h

theorem catchupStep_wp (f : Rat) (e : CallbackEnv) (s : AudioState) :
    (catchupStep f e s).1.audioWritePosition =
      if (f < (0.15 : Rat) ∧ s.frameCallCount < 90) ∧ e.hasGetWritePos = true then
        e.wp2
      else s.audioWritePosition := by
  unfold catchupStep
  split_ifs <;> simp_all [pollWrite_wp]

@[simp] theorem reacquire_wp (C : Nat) (e : CallbackEnv) (s : AudioState) :
    (reacquire C e s).audioWritePosition = s.audioWritePosition := by
  unfold reacquire; split_ifs <;> rfl

@[simp] theorem reacquire_rp (C : Nat) (e : CallbackEnv) (s : AudioState) :
    (reacquire C e s).audioReadPosition = s.audioReadPosition := by
  unfold reacquire; split_ifs <;> rfl

@[simp] theorem reacquire_skip (C : Nat) (e : CallbackEnv) (s : AudioState) :
    (reacquire C e s).audioSkipCount = s.audioSkipCount := by
  unfold reacquire; split_ifs <;> rfl

@[simp] theorem reacquire_clip (C : Nat) (e : CallbackEnv) (s : AudioState) :
    (reacquire C e s).clipCount = s.clipCount := by
  unfold reacquire; split_ifs <;> rfl

@[simp] theorem reacquire_backoff (C : Nat) (e : CallbackEnv) (s : AudioState) :
    (reacquire C e s).audioBackOffCounter = s.audioBackOffCounter := by
  unfold reacquire; split_ifs <;> rfl

@[simp] theorem reacquire_lat (C : Nat) (e : CallbackEnv) (s : AudioState) :
    (reacquire C e s).lastAudioTime = s.lastAudioTime := by
  unfold reacquire; split_ifs <;> rfl

@[simp] theorem reacquire_lfr (C : Nat) (e : CallbackEnv) (s : AudioState) :
    (reacquire C e s).lastFrameReset = s.lastFrameReset := by
  unfold reacquire; split_ifs <;> rfl

@[simp] theorem reacquire_fcc (C : Nat) (e : CallbackEnv) (s : AudioState) :
    (reacquire C e s).frameCallCount = s.frameCallCount := by
  unfold reacquire; split_ifs <;> rfl

@[simp] theorem reacquire_lock (C : Nat) (e : CallbackEnv) (s : AudioState) :
    (reacquire C e s).audioThreadLock = s.audioThreadLock := by
  unfold reacquire; split_ifs <;> rfl

theorem reacquire_view (C : Nat) (e : CallbackEnv) (s : AudioState) :
    (reacquire C e s).audioBufferResampled =
      if s.audioBufferResampled = some 0 ∧ e.hasGetBufAddr = true ∧
          e.hasHeap16 = true then some C
      else s.audioBufferResampled := by
  unfold reacquire; split_ifs <;> rfl

@[simp] theorem armBackoff_rp (u : Bool) (s : AudioState) :
    (armBackoff u s).audioReadPosition = s.audioReadPosition := by
  unfold armBackoff; split_ifs <;> rfl

@[simp] theorem armBackoff_wp (u : Bool) (s : AudioState) :
    (armBackoff u s).audioWritePosition = s.audioWritePosition := by
  unfold armBackoff; split_ifs <;> rfl

@[simp] theorem armBackoff_skip (u : Bool) (s : AudioState) :
    (armBackoff u s).audioSkipCount = s.audioSkipCount := by
  unfold armBackoff; split_ifs <;> rfl

@[simp] theorem armBackoff_clip (u : Bool) (s : AudioState) :
    (armBackoff u s).clipCount = s.clipCount := by
  unfold armBackoff; split_ifs <;> rfl

@[simp] theorem armBackoff_view (u : Bool) (s : AudioState) :
    (armBackoff u s).audioBufferResampled = s.audioBufferResampled := by
  unfold armBackoff; split_ifs <;> rfl

@[simp] theorem armBackoff_lat (u : Bool) (s : AudioState) :
    (armBackoff u s).lastAudioTime = s.lastAudioTime := by
  unfold armBackoff; split_ifs <;> rfl

@[simp] theorem armBackoff_lfr (u : Bool) (s : AudioState) :
    (armBackoff u s).lastFrameReset = s.lastFrameReset := by
  unfold armBackoff; split_ifs <;> rfl

@[simp] theorem armBackoff_fcc (u : Bool) (s : AudioState) :
    (armBackoff u s).frameCallCount = s.frameCallCount := by
  unfold armBackoff; split_ifs <;> rfl

@[simp] theorem armBackoff_lock (u : Bool) (s : AudioState) :
    (armBackoff u s).audioThreadLock = s.audioThreadLock := by
  unfold armBackoff; split_ifs <;> rfl

theorem armBackoff_backoff (u : Bool) (s : AudioState) :
    (armBackoff u s).audioBackOffCounter =
      if u = true ∧ s.audioBackOffCounter = 0 then 2 else s.audioBackOffCounter := by
  unfold armBackoff; split_ifs <;> rfl

@[simp] theorem statsWindow_rp (t : Rat) (s : AudioState) :
    (statsWindow t s).audioReadPosition = s.audioReadPosition := by
  unfold statsWindow; split_ifs <;> rfl

@[simp] theorem statsWindow_wp (t : Rat) (s : AudioState) :
    (statsWindow t s).audioWritePosition = s.audioWritePosition := by
  unfold statsWindow; split_ifs <;> rfl

@[simp] theorem statsWindow_view (t : Rat) (s : AudioState) :
    (statsWindow t s).audioBufferResampled = s.audioBufferResampled := by
  unfold statsWindow; split_ifs <;> rfl

@[simp] theorem statsWindow_backoff (t : Rat) (s : AudioState) :
    (statsWindow t s).audioBackOffCounter = s.audioBackOffCounter := by
  unfold statsWindow; split_ifs <;> rfl

@[simp] theorem statsWindow_fcc (t : Rat) (s : AudioState) :
    (statsWindow t s).frameCallCount = s.frameCallCount := by
  unfold statsWindow; split_ifs <;> rfl

@[simp] theorem statsWindow_lfr (t : Rat) (s : AudioState) :
    (statsWindow t s).lastFrameReset = s.lastFrameReset := by
  unfold statsWindow; split_ifs <;> rfl

@[simp] theorem statsWindow_lock (t : Rat) (s : AudioState) :
    (statsWindow t s).audioThreadLock = s.audioThreadLock := by
  unfold statsWindow; split_ifs <;> rfl

theorem statsWindow_skip (t : Rat) (s : AudioState) :
    (statsWindow t s).audioSkipCount =
      if 10000 < t - s.lastAudioTime then 0 else s.audioSkipCount := by
  unfold statsWindow; split_ifs <;> rfl

theorem statsWindow_clip (t : Rat) (s : AudioState) :
    (statsWindow t s).clipCount =
      if 10000 < t - s.lastAudioTime then 0 else s.clipCount := by
  unfold statsWindow; split_ifs <;> rfl

/-! ## Helper lemmas about the consumption loop -/

/-- When the write cursor equals the read cursor the whole pass underruns:
every frame is silence, the skip counter increases by the pass length, the read
cursor does not move, and (for a nonempty pass) the underrun flag is set. -/
theorem consumeLoop_underrun (C wp : Nat) (view : Option Nat) (mem : Nat → Int) :
    ∀ (n : Nat) (cs : ConsumeState), wp = cs.rp →
      consumeLoop C wp view mem n cs =
        ({ cs with skip := cs.skip + n,
                   hadUnderrun := if n = 0 then cs.hadUnderrun else true },
         List.replicate n (Sample.silence, Sample.silence)) := by
  intro n
  induction n with
  | zero => intro cs h; simp [consumeLoop]
  | succ n ih =>
    intro cs h
    have hone : consumeOne C wp view mem cs =
        ({ cs with skip := cs.skip + 1, hadUnderrun := true },
         (Sample.silence, Sample.silence)) := by
      unfold consumeOne
      rw [if_neg]
      intro hco
      exact hco.1 h
    unfold consumeLoop
    rw [hone]
    dsimp only
    rw [ih { cs with skip := cs.skip + 1, hadUnderrun := true } h]
    simp [List.replicate_succ]
    try omega

/-- The first frame of a nonempty pass is the frame of the first iteration. -/
theorem consumeLoop_head (C wp : Nat) (view : Option Nat) (mem : Nat → Int)
    (n : Nat) (cs : ConsumeState) (h : 0 < n) :
    (consumeLoop C wp view mem n cs).2.head? =
      some (consumeOne C wp view mem cs).2 := by
  cases n with
  | zero => exact absurd h (by simp)
  | succ n => simp [consumeLoop]

theorem abs_normQ (x : Int) : |normQ x| = (x.natAbs : Rat) / 32768 := by
  unfold normQ
  rw [abs_div, Int.cast_natAbs]
  norm_num

/-- The soft-clip trigger on a raw 16-bit sample, reduced to an integer bound:
`|x/32768| > 0.95` holds exactly when `|x| ≥ 31130` (since `0.95 * 32768 = 31129.6`). -/
theorem clip_cond_iff (x : Int) : ((0.95 : Rat) < |normQ x|) ↔ 31130 ≤ x.natAbs := by
  rw [abs_normQ, lt_div_iff₀ (by norm_num : (0 : Rat) < 32768)]
  have key : (0.95 : Rat) * 32768 = 31129 + 3 / 5 := by norm_num
  rw [key]
  constructor
  · intro h
    by_contra hn
    push_neg at hn
    have h2 : (x.natAbs : Rat) ≤ 31129 := by exact_mod_cast Nat.lt_succ_iff.mp hn
    linarith
  · intro h
    have h2 : (31130 : Rat) ≤ (x.natAbs : Rat) := by exact_mod_cast h
    linarith

theorem clipFlag_raw (x : Int) :
    (Sample.raw x).clipFlag = decide (31130 ≤ x.natAbs) := by
  unfold Sample.clipFlag
  rw [decide_eq_decide]
  exact clip_cond_iff x

/-- A pass of length one is a single iteration. -/
theorem consumeLoop_one (C wp : Nat) (view : Option Nat) (mem : Nat → Int)
    (cs : ConsumeState) :
    consumeLoop C wp view mem 1 cs =
      ((consumeOne C wp view mem cs).1, [(consumeOne C wp view mem cs).2]) := rfl

/-- The loop state after a consuming iteration against an attached view. -/
theorem consumeOne_consume (C wp len : Nat) (mem : Nat → Int) (cs : ConsumeState)
    (hne : wp ≠ cs.rp) :
    (consumeOne C wp (some len) mem cs).1 =
      { cs with rp := advanceRead C cs.rp,
                clip := cs.clip +
                  ((if (readView (some len) mem cs.rp).clipFlag then 1 else 0) +
                   (if (readView (some len) mem (cs.rp + 1)).clipFlag then 1 else 0)) } := by
  unfold consumeOne
  rw [if_pos ⟨hne, rfl⟩]

/-- A consuming iteration against an attached view with both stereo indices in
bounds reads the raw pair at the read cursor and advances it. -/
theorem consumeOne_reads (C wp len : Nat) (mem : Nat → Int) (cs : ConsumeState)
    (hne : wp ≠ cs.rp) (hlt : cs.rp + 1 < len) :
    (consumeOne C wp (some len) mem cs).2 =
      (Sample.raw (mem cs.rp), Sample.raw (mem (cs.rp + 1))) ∧
    (consumeOne C wp (some len) mem cs).1.rp = advanceRead C cs.rp := by
  have h0 : cs.rp < len := Nat.lt_of_succ_lt hlt
  simp [consumeOne, readView, hne, h0, hlt]

/-- Characterization of a NORMAL-state (guard free, no back-off) callback whose
two write-cursor polls agree: outputs and cursor/counter effects are those of
the consumption loop, followed by back-off arming and the 10-second stats
window. -/
theorem onAudioProcess_normal_path (C bs : Nat) (env : CallbackEnv)
    (s : AudioState) (hlock : s.audioThreadLock = false)
    (hback : s.audioBackOffCounter = 0) (h12 : env.wp1 = env.wp2) :
    (onAudioProcess C bs env s).outL = (loopRun C bs env s).2.map Prod.fst ∧
    (onAudioProcess C bs env s).outR = (loopRun C bs env s).2.map Prod.snd ∧
    (onAudioProcess C bs env s).state.audioReadPosition = (loopRun C bs env s).1.rp ∧
    (onAudioProcess C bs env s).state.audioSkipCount =
      (if 10000 < env.now - s.lastAudioTime then 0 else (loopRun C bs env s).1.skip) ∧
    (onAudioProcess C bs env s).state.clipCount =
      (if 10000 < env.now - s.lastAudioTime then 0 else (loopRun C bs env s).1.clip) ∧
    (onAudioProcess C bs env s).state.audioBackOffCounter =
      (if (loopRun C bs env s).1.hadUnderrun = true then 2 else 0) ∧
    (onAudioProcess C bs env s).state.audioBufferResampled = midView C env s ∧
    (onAudioProcess C bs env s).state.audioWritePosition = midWritePos env s := by
  unfold onAudioProcess loopRun midWritePos midView
  rw [if_neg (by simp [hlock])]
  dsimp only
  rw [if_neg (by simp [hback])]
  dsimp only
  simp only [reacquire_view, statsWindow_skip, statsWindow_clip, armBackoff_backoff,
    catchupStep_wp, pollWrite_wp, coreStep_wp, fpsWindow_wp, catchupStep_view,
    pollWrite_view, coreStep_view, fpsWindow_view, catchupStep_rp, pollWrite_rp,
    coreStep_rp, fpsWindow_rp, catchupStep_skip, pollWrite_skip, coreStep_skip,
    fpsWindow_skip, catchupStep_clip, pollWrite_clip, coreStep_clip, fpsWindow_clip,
    catchupStep_lat, pollWrite_lat, coreStep_lat, fpsWindow_lat, catchupStep_backoff,
    pollWrite_backoff, coreStep_backoff, fpsWindow_backoff, reacquire_wp,
    reacquire_rp, reacquire_skip, reacquire_clip, reacquire_lat, reacquire_backoff,
    armBackoff_lat, armBackoff_rp, armBackoff_skip, armBackoff_clip, statsWindow_rp,
    statsWindow_backoff, statsWindow_view, armBackoff_view, statsWindow_wp,
    armBackoff_wp, h12, hback]
  split_ifs <;> simp_all

/-! ## Soft-clip shaping facts -/

theorem emits_raw_iff (x : Int) (y : Real) :
    (Sample.raw x).emits y ↔
      y = (if (0.95 : Rat) < |normQ x| then
          Real.tanh (0.9 * ((normQ x : Rat) : Real))
        else ((normQ x : Rat) : Real)) := by
  simp only [Sample.emits]
  split_ifs with h
  · rw [mul_comm]
  · exact Iff.rfl

theorem emits_raw_small (x : Int) (h : ¬ ((0.95 : Rat) < |normQ x|)) (y : Real)
    (hy : y = ((normQ x : Rat) : Real)) : (Sample.raw x).emits y := by
  simp only [Sample.emits]
  rw [if_neg h]
  exact hy

/-- C8: a callback invoked while the re-entrancy guard flag is held returns
immediately without processing: no stepping, output arrays untouched, and
ReadCursor, BackoffCounter, skipCount and clipCount (indeed the whole state)
unchanged. -/
theorem reentrant_callback_dropped (C bs : Nat) (env : CallbackEnv) (s : AudioState)
    (h : s.audioThreadLock = true) :
    (onAudioProcess C bs env s).state = s ∧
    (onAudioProcess C bs env s).steps = 0 ∧
    (onAudioProcess C bs env s).outL = [] ∧
    (onAudioProcess C bs env s).outR = [] ∧
    (onAudioProcess C bs env s).state.audioReadPosition = s.audioReadPosition ∧
    (onAudioProcess C bs env s).state.audioBackOffCounter = s.audioBackOffCounter ∧
    (onAudioProcess C bs env s).state.audioSkipCount = s.audioSkipCount ∧
    (onAudioProcess C bs env s).state.clipCount = s.clipCount := by
  simp [onAudioProcess, h]

/-- C8 witness: the guard-drop theorem evaluated at a concrete locked state. -/
theorem reentrant_callback_dropped_witness :
    ({ baseState with audioThreadLock := true } : AudioState).audioThreadLock = true ∧
    ((onAudioProcess RING_BUFFER_SIZE 4 baseEnv
        { baseState with audioThreadLock := true }).state =
      { baseState with audioThreadLock := true } ∧
    (onAudioProcess RING_BUFFER_SIZE 4 baseEnv
        { baseState with audioThreadLock := true }).steps = 0 ∧
    (onAudioProcess RING_BUFFER_SIZE 4 baseEnv
        { baseState with audioThreadLock := true }).outL = [] ∧
    (onAudioProcess RING_BUFFER_SIZE 4 baseEnv
        { baseState with audioThreadLock := true }).outR = [] ∧
    (onAudioProcess RING_BUFFER_SIZE 4 baseEnv
        { baseState with audioThreadLock := true }).state.audioReadPosition =
      ({ baseState with audioThreadLock := true } : AudioState).audioReadPosition ∧
    (onAudioProcess RING_BUFFER_SIZE 4 baseEnv
        { baseState with audioThreadLock := true }).state.audioBackOffCounter =
      ({ baseState with audioThreadLock := true } : AudioState).audioBackOffCounter ∧
    (onAudioProcess RING_BUFFER_SIZE 4 baseEnv
        { baseState with audioThreadLock := true }).state.audioSkipCount =
      ({ baseState with audioThreadLock := true } : AudioState).audioSkipCount ∧
    (onAudioProcess RING_BUFFER_SIZE 4 baseEnv
        { baseState with audioThreadLock := true }).state.clipCount =
      ({ baseState with audioThreadLock := true } : AudioState).clipCount) :=
  ⟨rfl, reentrant_callback_dropped RING_BUFFER_SIZE 4 baseEnv
    { baseState with audioThreadLock := true } rfl⟩

/-- C2: a callback entered (guard free) with BackoffCounter positive performs no
step invocation at all, fills the whole output with silence, decrements
BackoffCounter by exactly one, and leaves ReadCursor unchanged — with no
hypothesis on the fill level. -/
theorem backoff_callback_silent_no_step (C bs : Nat) (env : CallbackEnv)
    (s : AudioState) (hlock : s.audioThreadLock = false)
    (hb : 0 < s.audioBackOffCounter) :
    (onAudioProcess C bs env s).steps = 0 ∧
    (onAudioProcess C bs env s).outL = List.replicate bs Sample.silence ∧
    (onAudioProcess C bs env s).outR = List.replicate bs Sample.silence ∧
    (onAudioProcess C bs env s).state.audioBackOffCounter + 1 =
      s.audioBackOffCounter ∧
    (onAudioProcess C bs env s).state.audioReadPosition = s.audioReadPosition := by
  simp [onAudioProcess, hlock, hb]
  omega

/-- C2 witness: the back-off theorem evaluated at a concrete state with
BackoffCounter = 2. -/
theorem backoff_callback_silent_no_step_witness :
    ({ baseState with audioBackOffCounter := 2 } : AudioState).audioThreadLock
        = false ∧
    0 < ({ baseState with audioBackOffCounter := 2 } : AudioState).audioBackOffCounter ∧
    ((onAudioProcess RING_BUFFER_SIZE 4 baseEnv
        { baseState with audioBackOffCounter := 2 }).steps = 0 ∧
    (onAudioProcess RING_BUFFER_SIZE 4 baseEnv
        { baseState with audioBackOffCounter := 2 }).outL =
      List.replicate 4 Sample.silence ∧
    (onAudioProcess RING_BUFFER_SIZE 4 baseEnv
        { baseState with audioBackOffCounter := 2 }).outR =
      List.replicate 4 Sample.silence ∧
    (onAudioProcess RING_BUFFER_SIZE 4 baseEnv
        { baseState with audioBackOffCounter := 2 }).state.audioBackOffCounter + 1 =
      ({ baseState with audioBackOffCounter := 2 } : AudioState).audioBackOffCounter ∧
    (onAudioProcess RING_BUFFER_SIZE 4 baseEnv
        { baseState with audioBackOffCounter := 2 }).state.audioReadPosition =
      ({ baseState with audioBackOffCounter := 2 } : AudioState).audioReadPosition) :=
  ⟨rfl, by decide, backoff_callback_silent_no_step RING_BUFFER_SIZE 4 baseEnv
    { baseState with audioBackOffCounter := 2 } rfl (by decide)⟩

/-- C9 counterexample: with the buffer-address accessor missing, `initialize`
does not abort — it completes normally (`Except.ok`), merely logging a warning
and leaving the view null.  This refutes the claim that initialization fails. -/
theorem init_missing_accessor_cex :
    (initializeModel false).isOk = true ∧
    initializeModel false = Except.ok { audioBufferResampled := none, warned := true } :=
  ⟨rfl, rfl⟩

/-- C9 amended: if the simulation core does not expose a buffer-address accessor
at engine construction time, initialization logs a warning and completes
normally with the sample-buffer view left unbound; with the accessor present it
completes normally with the view bound at full capacity. -/
theorem init_missing_accessor_warns_and_continues :
    initializeModel false = Except.ok { audioBufferResampled := none, warned := true } ∧
    (initializeModel false).isOk = true ∧
    initializeModel true =
      Except.ok { audioBufferResampled := some RING_BUFFER_SIZE, warned := false } :=
  ⟨rfl, rfl, rfl⟩

/-- C10: when a gain node exists, `setVolume v` applies the clamped gain
`min 1 (max 0 v)` but stores the raw `v` into the configuration, so a subsequent
`getVolume` returns `v`; for any `v` outside `[0, 1]` the stored volume differs
from the applied gain. -/
theorem volume_clamped_gain_raw_stored (s : GainState) (v : Rat)
    (h : s.hasGainNode = true) :
    (setVolume s v).gainValue = min 1 (max 0 v) ∧
    getVolume (setVolume s v) = v ∧
    ((v < 0 ∨ 1 < v) → getVolume (setVolume s v) ≠ (setVolume s v).gainValue) := by
  refine ⟨?_, ?_, ?_⟩
  · simp only [setVolume, h, if_true]
    rw [max_min_distrib_left]
    norm_num
  · simp [setVolume, getVolume, h]
  · intro hv
    simp only [setVolume, getVolume, h, if_true]
    rcases hv with hv | hv
    · rw [min_eq_right (by linarith : v ≤ 1), max_eq_left (le_of_lt hv)]
      exact hv.ne
    · rw [min_eq_left (by linarith : (1 : Rat) ≤ v),
        max_eq_right (by norm_num : (0 : Rat) ≤ 1)]
      exact hv.ne'

theorem advanceRead_lt (C rp : Nat) (hC : 0 < C) :
    advanceRead C rp < C := by
  unfold advanceRead
  split_ifs
  · exact hC
  · omega

theorem consumeOne_rp (C wp : Nat) (view : Option Nat) (mem : Nat → Int)
    (cs : ConsumeState) :
    (consumeOne C wp view mem cs).1.rp = advanceRead C cs.rp ∨
    (consumeOne C wp view mem cs).1.rp = cs.rp := by
  unfold consumeOne
  split_ifs
  · exact Or.inl rfl
  · exact Or.inr rfl

theorem consumeLoop_rp_lt (C wp : Nat) (view : Option Nat) (mem : Nat → Int)
    (hC : 0 < C) :
    ∀ (n : Nat) (cs : ConsumeState), cs.rp < C →
      (consumeLoop C wp view mem n cs).1.rp < C := by
  intro n
  induction n with
  | zero => intro cs h; exact h
  | succ n ih =>
    intro cs h
    have hstep : (consumeOne C wp view mem cs).1.rp < C := by
      rcases consumeOne_rp C wp view mem cs with he | he <;> rw [he]
      · exact advanceRead_lt C cs.rp hC
      · exact h
    exact ih (consumeOne C wp view mem cs).1 hstep

theorem getBufferFill_bounds (C : Nat) (s : AudioState) (hC : 0 < C)
    (h1 : s.audioWritePosition < C) (h2 : s.audioReadPosition < C) :
    0 ≤ getBufferFill C s ∧ getBufferFill C s ≤ 1 := by
  unfold getBufferFill
  have hw : ((s.audioWritePosition : Int)) < (C : Int) := by exact_mod_cast h1
  have hr : ((s.audioReadPosition : Int)) < (C : Int) := by exact_mod_cast h2
  have hw0 : (0 : Int) ≤ (s.audioWritePosition : Int) := Int.natCast_nonneg _
  have hr0 : (0 : Int) ≤ (s.audioReadPosition : Int) := Int.natCast_nonneg _
  have hC0 : (0 : Int) < (C : Int) := by exact_mod_cast hC
  set d : Int := (s.audioWritePosition : Int) - (s.audioReadPosition : Int) with hd
  have key : 0 ≤ (if d < 0 then d + (C : Int) else d) ∧
      (if d < 0 then d + (C : Int) else d) ≤ (C : Int) := by
    split_ifs <;> omega
  have hCq : (0 : Rat) < (C : Rat) := by exact_mod_cast hC
  constructor
  · apply div_nonneg _ (le_of_lt hCq)
    exact_mod_cast key.1
  · rw [div_le_one hCq]
    exact_mod_cast key.2

theorem onAudioProcess_inv (C bs : Nat) (env : CallbackEnv) (s : AudioState)
    (hC : 0 < C) (hinv : CursorInv C s) (h1 : env.wp1 < C) (h2 : env.wp2 < C) :
    CursorInv C (onAudioProcess C bs env s).state := by
  unfold onAudioProcess
  by_cases hl : s.audioThreadLock = true
  · rw [if_pos hl]
    exact hinv
  · rw [if_neg hl]
    dsimp only
    by_cases hb : 0 < s.audioBackOffCounter
    · rw [if_pos hb]
      exact hinv
    · rw [if_neg hb]
      dsimp only
      constructor
      · simp only [statsWindow_wp, armBackoff_wp, reacquire_wp, catchupStep_wp,
          pollWrite_wp, coreStep_wp, fpsWindow_wp]
        split_ifs <;> first | exact h2 | exact h1 | exact hinv.1
      · simp only [statsWindow_rp, armBackoff_rp]
        exact consumeLoop_rp_lt C _ _ env.mem hC bs _ (by
          simp only [reacquire_rp, catchupStep_rp, pollWrite_rp, coreStep_rp,
            fpsWindow_rp]
          exact hinv.2)

theorem runCallbacks_inv (C bs : Nat) (hC : 0 < C) :
    ∀ (envs : List CallbackEnv) (s : AudioState), CursorInv C s →
      (∀ env ∈ envs, env.wp1 < C ∧ env.wp2 < C) →
      CursorInv C (runCallbacks C bs s envs).1 := by
  intro envs
  induction envs with
  | nil => intro s h _; exact h
  | cons env rest ih =>
    intro s hinv hb
    have h1 := (hb env (by simp)).1
    have h2 := (hb env (by simp)).2
    exact ih (onAudioProcess C bs env s).state
      (onAudioProcess_inv C bs env s hC hinv h1 h2)
      (fun e he => hb e (by simp [he]))

/-! ## Step accounting -/

theorem runCallbacks_nil (C bs : Nat) (s : AudioState) :
    runCallbacks C bs s [] = (s, 0) := rfl

theorem runCallbacks_cons (C bs : Nat) (env : CallbackEnv)
    (rest : List CallbackEnv) (s : AudioState) :
    runCallbacks C bs s (env :: rest) =
      ((runCallbacks C bs (onAudioProcess C bs env s).state rest).1,
       (onAudioProcess C bs env s).steps +
         (runCallbacks C bs (onAudioProcess C bs env s).state rest).2) := rfl

theorem statsWindow_lat_of_le {t : Rat} {s : AudioState}
    (h : t ≤ s.lastAudioTime + 10000) :
    (statsWindow t s).lastAudioTime = s.lastAudioTime := by
  unfold statsWindow
  rw [if_neg]
  intro hlt
  linarith

theorem getBufferFill_lock (C : Nat) (s : AudioState) (b : Bool) :
    getBufferFill C { s with audioThreadLock := b } = getBufferFill C s := rfl

/-- Accounting across one callback that stays inside the current 1-second
window: the guard ends released, the window anchor is unchanged, the window
step counter grows by exactly the number of step invocations, at most two steps
run, a second (catch-up) step runs only when the counter was still below the
90-step cap, and the 10-second stats anchor is unchanged when that window has
not elapsed either. -/
theorem onAudioProcess_account (C bs : Nat) (env : CallbackEnv) (s : AudioState)
    (hlock : s.audioThreadLock = false)
    (hwin : env.now ≤ s.lastFrameReset + 1000) :
    (onAudioProcess C bs env s).state.audioThreadLock = false ∧
    (onAudioProcess C bs env s).state.lastFrameReset = s.lastFrameReset ∧
    (onAudioProcess C bs env s).state.frameCallCount =
      s.frameCallCount + (onAudioProcess C bs env s).steps ∧
    (onAudioProcess C bs env s).steps ≤ 2 ∧
    ((onAudioProcess C bs env s).steps = 2 → s.frameCallCount + 1 < 90) ∧
    (env.now ≤ s.lastAudioTime + 10000 →
      (onAudioProcess C bs env s).state.lastAudioTime = s.lastAudioTime) := by
  unfold onAudioProcess
  rw [if_neg (by simp [hlock])]
  dsimp only
  by_cases hb : 0 < s.audioBackOffCounter
  · rw [if_pos hb]
    exact ⟨rfl, rfl, by dsimp only; omega, by dsimp only; omega,
      by dsimp only; omega, fun _ => rfl⟩
  · rw [if_neg hb]
    dsimp only
    rw [fpsWindow_eq_of_le
      (show env.now ≤ ({ s with audioThreadLock := true } : AudioState).lastFrameReset
          + 1000 from hwin)]
    refine ⟨rfl, by simp, ?_, ?_, ?_, ?_⟩
    · simp only [statsWindow_fcc, armBackoff_fcc, reacquire_fcc, catchupStep_fcc,
        pollWrite_fcc, coreStep_fcc]
      omega
    · have h1 := coreStep_snd_le env.hasRunMainLoop { s with audioThreadLock := true }
      have h2 := catchupStep_snd_le
        (getBufferFill C { s with audioThreadLock := true }) env
        (pollWrite env.hasGetWritePos env.wp1
          (coreStep env.hasRunMainLoop { s with audioThreadLock := true }).1)
      omega
    · intro h2
      have ha := coreStep_snd_le env.hasRunMainLoop { s with audioThreadLock := true }
      have hc := catchupStep_snd_le
        (getBufferFill C { s with audioThreadLock := true }) env
        (pollWrite env.hasGetWritePos env.wp1
          (coreStep env.hasRunMainLoop { s with audioThreadLock := true }).1)
      have hpos : 0 < (catchupStep
          (getBufferFill C { s with audioThreadLock := true }) env
          (pollWrite env.hasGetWritePos env.wp1
            (coreStep env.hasRunMainLoop { s with audioThreadLock := true }).1)).2 := by
        omega
      have h90 := catchupStep_snd_pos _ _ _ hpos
      rw [pollWrite_fcc, coreStep_fcc] at h90
      have h90b : s.frameCallCount +
          (coreStep env.hasRunMainLoop { s with audioThreadLock := true }).2 < 90 :=
        h90
      omega
    · intro hlat
      rw [statsWindow_lat_of_le (by simpa using hlat)]
      simp

/-- Every NORMAL-state callback with the step accessor available runs at least
the baseline step. -/
theorem onAudioProcess_steps_pos (C bs : Nat) (env : CallbackEnv) (s : AudioState)
    (hlock : s.audioThreadLock = false) (hback : s.audioBackOffCounter = 0)
    (hrun : env.hasRunMainLoop = true) :
    1 ≤ (onAudioProcess C bs env s).steps := by
  unfold onAudioProcess
  rw [if_neg (by simp [hlock])]
  dsimp only
  rw [if_neg (by simp [hback])]
  dsimp only
  have h1 : (coreStep env.hasRunMainLoop
      (fpsWindow env.now { s with audioThreadLock := true })).2 = 1 := by
    unfold coreStep
    rw [if_pos hrun]
  omega

/-- A NORMAL-state callback inside the window, with the step accessor
available, a fill snapshot below 0.15 and the step counter below the cap, runs
exactly two steps (baseline plus catch-up). -/
theorem onAudioProcess_steps_two (C bs : Nat) (env : CallbackEnv) (s : AudioState)
    (hlock : s.audioThreadLock = false) (hback : s.audioBackOffCounter = 0)
    (hwin : env.now ≤ s.lastFrameReset + 1000)
    (hrun : env.hasRunMainLoop = true)
    (hfill : getBufferFill C s < (0.15 : Rat))
    (hcap : s.frameCallCount + 1 < 90) :
    (onAudioProcess C bs env s).steps = 2 := by
  unfold onAudioProcess
  rw [if_neg (by simp [hlock])]
  dsimp only
  rw [if_neg (by simp [hback])]
  dsimp only
  rw [fpsWindow_eq_of_le
    (show env.now ≤ ({ s with audioThreadLock := true } : AudioState).lastFrameReset
        + 1000 from hwin)]
  have hfillA : getBufferFill C { s with audioThreadLock := true } < (0.15 : Rat) :=
    hfill
  unfold catchupStep coreStep pollWrite
  dsimp only
  split_ifs <;> simp_all

/-- Within one accounting window, starting from a counter value within budget,
the counter tracks the total steps and stays bounded: after `k` earlier
callbacks and the listed ones, the total is at most
`(k + length) + min (k + length) 45`. -/
theorem runCallbacks_fcc_bound (C bs : Nat) :
    ∀ (envs : List CallbackEnv) (s : AudioState) (k : Nat),
      s.audioThreadLock = false →
      (∀ env ∈ envs, env.now ≤ s.lastFrameReset + 1000) →
      s.frameCallCount ≤ k + min k 45 →
      s.frameCallCount + (runCallbacks C bs s envs).2 ≤
        (k + envs.length) + min (k + envs.length) 45 := by
  intro envs
  induction envs with
  | nil =>
    intro s k _ _ h3
    simpa [runCallbacks] using h3
  | cons env rest ih =>
    intro s k hlock hwin hfcc
    obtain ⟨hl, hlfr, hfc, hle, h90, -⟩ :=
      onAudioProcess_account C bs env s hlock (hwin env (by simp))
    have hnext : (onAudioProcess C bs env s).state.frameCallCount ≤
        (k + 1) + min (k + 1) 45 := by
      rcases Nat.lt_or_ge (onAudioProcess C bs env s).steps 2 with h | h
      · rw [hfc]; omega
      · have h2 : (onAudioProcess C bs env s).steps = 2 := le_antisymm hle h
        have h3 := h90 h2
        rw [hfc, h2]; omega
    have hwin2 : ∀ e ∈ rest,
        e.now ≤ (onAudioProcess C bs env s).state.lastFrameReset + 1000 := by
      intro e he
      rw [hlfr]
      exact hwin e (by simp [he])
    have htail := ih (onAudioProcess C bs env s).state (k + 1) hl hwin2 hnext
    rw [runCallbacks_cons]
    dsimp only
    simp only [List.length_cons]
    omega

/-- C5 counterexample: with write cursor at 0 and read cursor at 0 the engine
considers the buffer empty (`wp == rp` is the exhaustion test), so consuming 2
stereo frames yields two silent frames with the read cursor unmoved — not the
claimed sample frames. -/
theorem round_trip_wp0_underruns_cex :
    (consumeLoop 8 0 (some 8) c5mem 2
        { rp := 0, skip := 0, clip := 0, hadUnderrun := false }).2 =
      [(Sample.silence, Sample.silence), (Sample.silence, Sample.silence)] ∧
    (consumeLoop 8 0 (some 8) c5mem 2
        { rp := 0, skip := 0, clip := 0, hadUnderrun := false }).1.rp = 0 ∧
    (consumeLoop 8 0 (some 8) c5mem 2
        { rp := 0, skip := 0, clip := 0, hadUnderrun := false }).2 ≠
      [(Sample.raw 100, Sample.raw (-100)), (Sample.raw 200, Sample.raw (-200))] := by
  decide

/-- C5 (amended): with capacity 8, content [100, -100, 200, -200, 300, -300,
400, -400] and the write cursor at 4 (two stereo frames available), consuming 2
stereo frames from read cursor 0 yields the frames (100/32768, -100/32768) and
(200/32768, -200/32768) and leaves the read cursor at 4. -/
theorem round_trip_consume_two_frames :
    (consumeLoop 8 4 (some 8) c5mem 2
        { rp := 0, skip := 0, clip := 0, hadUnderrun := false }).2 =
      [(Sample.raw 100, Sample.raw (-100)), (Sample.raw 200, Sample.raw (-200))] ∧
    (consumeLoop 8 4 (some 8) c5mem 2
        { rp := 0, skip := 0, clip := 0, hadUnderrun := false }).1.rp = 4 ∧
    (Sample.raw 100).emits ((100 : Real) / 32768) ∧
    (Sample.raw (-100)).emits (-((100 : Real) / 32768)) ∧
    (Sample.raw 200).emits ((200 : Real) / 32768) ∧
    (Sample.raw (-200)).emits (-((200 : Real) / 32768)) := by
  have heval : consumeLoop 8 4 (some 8) c5mem 2
      { rp := 0, skip := 0, clip := 0, hadUnderrun := false } =
      ({ rp := 4, skip := 0, clip := 0, hadUnderrun := false },
       [(Sample.raw 100, Sample.raw (-100)), (Sample.raw 200, Sample.raw (-200))]) := by
    simp [consumeLoop, consumeOne, readView, advanceRead, clipFlag_raw, c5mem]
  refine ⟨by rw [heval], by rw [heval], ?_, ?_, ?_, ?_⟩ <;>
  · apply emits_raw_small _ (by rw [clip_cond_iff]; decide)
    push_cast [normQ]
    norm_num

/-- C4: the first consumed frame of a NORMAL-state callback with data available
emits exactly the raw stereo pair at the read cursor; an emitted value for a raw
sample `x` is `tanh(0.9 * (x/32768))` when `|x/32768| > 0.95` and `x/32768`
otherwise; for raw input 32767 the emitted value is exactly
`tanh(0.9 * (32767/32768))`, and 32767 normalizes to 32767/32768, not 1. -/
theorem softclip_tanh_formula (bs : Nat) (env : CallbackEnv) (s : AudioState)
    (hbs : 0 < bs)
    (hlock : s.audioThreadLock = false)
    (hback : s.audioBackOffCounter = 0)
    (hview : s.audioBufferResampled = some RING_BUFFER_SIZE)
    (hgwp : env.hasGetWritePos = true)
    (h12 : env.wp1 = env.wp2)
    (hne : env.wp2 ≠ s.audioReadPosition)
    (hrp : s.audioReadPosition + 1 < RING_BUFFER_SIZE) :
    (onAudioProcess RING_BUFFER_SIZE bs env s).outL.head? =
      some (Sample.raw (env.mem s.audioReadPosition)) ∧
    (onAudioProcess RING_BUFFER_SIZE bs env s).outR.head? =
      some (Sample.raw (env.mem (s.audioReadPosition + 1))) ∧
    (∀ (x : Int) (y : Real), (Sample.raw x).emits y ↔
      y = (if (0.95 : Rat) < |normQ x| then
          Real.tanh (0.9 * ((normQ x : Rat) : Real))
        else ((normQ x : Rat) : Real))) ∧
    (Sample.raw 32767).emits (Real.tanh (0.9 * ((32767 : Real) / 32768))) ∧
    normQ 32767 ≠ 1 := by
  obtain ⟨hL, hR, -, -, -, -, -, -⟩ :=
    onAudioProcess_normal_path RING_BUFFER_SIZE bs env s hlock hback h12
  have hmv : midView RING_BUFFER_SIZE env s = some RING_BUFFER_SIZE := by
    unfold midView
    rw [hview]
    simp [RING_BUFFER_SIZE]
  have hmw : midWritePos env s = env.wp2 := by
    unfold midWritePos
    rw [hgwp]
    simp
  have hco := consumeOne_reads RING_BUFFER_SIZE env.wp2 RING_BUFFER_SIZE env.mem
    { rp := s.audioReadPosition, skip := s.audioSkipCount, clip := s.clipCount,
      hadUnderrun := false } hne hrp
  refine ⟨?_, ?_, fun x y => emits_raw_iff x y, ?_, by norm_num [normQ]⟩
  · rw [hL]
    unfold loopRun
    rw [hmv, hmw, List.head?_map, consumeLoop_head _ _ _ _ _ _ hbs, hco.1]
    rfl
  · rw [hR]
    unfold loopRun
    rw [hmv, hmw, List.head?_map, consumeLoop_head _ _ _ _ _ _ hbs, hco.1]
    rfl
  · rw [emits_raw_iff,
      if_pos (by rw [clip_cond_iff]; decide : (0.95 : Rat) < |normQ 32767|)]
    congr 1
    push_cast [normQ]
    norm_num

/-- C4 witness: the soft-clip theorem evaluated at a concrete callback whose
first buffered sample is 32767. -/
theorem softclip_tanh_formula_witness :
    ((onAudioProcess RING_BUFFER_SIZE 1 fullScaleEnv baseState).outL.head? =
      some (Sample.raw (fullScaleEnv.mem 0)) ∧
    (onAudioProcess RING_BUFFER_SIZE 1 fullScaleEnv baseState).outR.head? =
      some (Sample.raw (fullScaleEnv.mem 1)) ∧
    (∀ (x : Int) (y : Real), (Sample.raw x).emits y ↔
      y = (if (0.95 : Rat) < |normQ x| then
          Real.tanh (0.9 * ((normQ x : Rat) : Real))
        else ((normQ x : Rat) : Real))) ∧
    (Sample.raw 32767).emits (Real.tanh (0.9 * ((32767 : Real) / 32768))) ∧
    normQ 32767 ≠ 1) :=
  softclip_tanh_formula 1 fullScaleEnv baseState (by decide) rfl rfl rfl rfl rfl
    (by decide) (by decide)

/-- C1 (amended): a callback entered in the NORMAL state (guard free,
BackoffCounter = 0) with the write cursor equal to the read cursor at the start
of the consumption loop (both polls agreeing, so it cannot change during the
loop) and a nonempty pass emits only silence, leaves ReadCursor unchanged and
sets BackoffCounter to 2; skipCount increases by exactly bufferSize provided the
10-second stats-logging window does not elapse during the callback. -/
theorem underrun_pass_silence (C bs : Nat) (env : CallbackEnv) (s : AudioState)
    (hbs : 0 < bs)
    (hlock : s.audioThreadLock = false)
    (hback : s.audioBackOffCounter = 0)
    (h12 : env.wp1 = env.wp2)
    (hwp : midWritePos env s = s.audioReadPosition)
    (hstats : env.now ≤ s.lastAudioTime + 10000) :
    (onAudioProcess C bs env s).outL = List.replicate bs Sample.silence ∧
    (onAudioProcess C bs env s).outR = List.replicate bs Sample.silence ∧
    (onAudioProcess C bs env s).state.audioSkipCount = s.audioSkipCount + bs ∧
    (onAudioProcess C bs env s).state.audioReadPosition = s.audioReadPosition ∧
    (onAudioProcess C bs env s).state.audioBackOffCounter = 2 := by
  obtain ⟨hL, hR, hrp, hskip, -, hbo, -, -⟩ :=
    onAudioProcess_normal_path C bs env s hlock hback h12
  have hbne : bs ≠ 0 := Nat.pos_iff_ne_zero.mp hbs
  have hlr : loopRun C bs env s =
      ({ rp := s.audioReadPosition, skip := s.audioSkipCount + bs,
         clip := s.clipCount, hadUnderrun := if bs = 0 then false else true },
       List.replicate bs (Sample.silence, Sample.silence)) := by
    unfold loopRun
    exact consumeLoop_underrun C (midWritePos env s) (midView C env s) env.mem bs
      { rp := s.audioReadPosition, skip := s.audioSkipCount, clip := s.clipCount,
        hadUnderrun := false } hwp
  refine ⟨?_, ?_, ?_, ?_, ?_⟩
  · rw [hL, hlr]
    simp [List.map_replicate]
  · rw [hR, hlr]
    simp [List.map_replicate]
  · rw [hskip, hlr, if_neg (by linarith : ¬ (10000 : Rat) < env.now - s.lastAudioTime)]
  · rw [hrp, hlr]
  · rw [hbo, hlr]
    simp [hbne]

/-- C1 witness: the underrun-pass theorem evaluated at a concrete NORMAL-state
callback with both cursors at 0, skipCount 7 and bufferSize 4. -/
theorem underrun_pass_silence_witness :
    ((onAudioProcess RING_BUFFER_SIZE 4 baseEnv
        { baseState with audioSkipCount := 7 }).outL =
      List.replicate 4 Sample.silence ∧
    (onAudioProcess RING_BUFFER_SIZE 4 baseEnv
        { baseState with audioSkipCount := 7 }).outR =
      List.replicate 4 Sample.silence ∧
    (onAudioProcess RING_BUFFER_SIZE 4 baseEnv
        { baseState with audioSkipCount := 7 }).state.audioSkipCount = 7 + 4 ∧
    (onAudioProcess RING_BUFFER_SIZE 4 baseEnv
        { baseState with audioSkipCount := 7 }).state.audioReadPosition = 0 ∧
    (onAudioProcess RING_BUFFER_SIZE 4 baseEnv
        { baseState with audioSkipCount := 7 }).state.audioBackOffCounter = 2) :=
  underrun_pass_silence RING_BUFFER_SIZE 4 baseEnv
    { baseState with audioSkipCount := 7 } (by decide) rfl rfl rfl (by decide)
    (by norm_num [baseEnv, baseState])

/-- C1 counterexample: the same underrun pass executed when the 10-second stats
window elapses during the callback (`now = 20000`, `lastAudioTime = 0`) ends
with skipCount reset to 0 instead of increased by bufferSize: the claim as
stated fails for this callback. -/
theorem underrun_pass_stats_reset_cex :
    ({ baseState with audioSkipCount := 7 } : AudioState).audioBackOffCounter = 0 ∧
    ({ baseEnv with now := 20000 } : CallbackEnv).wp1 =
      ({ baseState with audioSkipCount := 7 } : AudioState).audioReadPosition ∧
    ({ baseEnv with now := 20000 } : CallbackEnv).wp2 =
      ({ baseState with audioSkipCount := 7 } : AudioState).audioReadPosition ∧
    (onAudioProcess RING_BUFFER_SIZE 4 { baseEnv with now := 20000 }
        { baseState with audioSkipCount := 7 }).state.audioSkipCount = 0 ∧
    (onAudioProcess RING_BUFFER_SIZE 4 { baseEnv with now := 20000 }
        { baseState with audioSkipCount := 7 }).state.audioSkipCount ≠ 7 + 4 := by
  obtain ⟨-, -, -, hskip, -, -, -, -⟩ :=
    onAudioProcess_normal_path RING_BUFFER_SIZE 4 { baseEnv with now := 20000 }
      { baseState with audioSkipCount := 7 } rfl rfl rfl
  have h0 : (onAudioProcess RING_BUFFER_SIZE 4 { baseEnv with now := 20000 }
      { baseState with audioSkipCount := 7 }).state.audioSkipCount = 0 := by
    rw [hskip, if_pos]
    norm_num [baseEnv, baseState]
  exact ⟨rfl, rfl, rfl, h0, by rw [h0]; decide⟩

/-- C6 (amended): a NORMAL-state callback that begins with a detached
(zero-length) view re-acquires the view before the consumption loop (after the
stepping phase, not as its first action) when the core exposes the address
accessor and heap; the loop then reads through the fresh view, so with data
available the first output slot is the buffered raw sample, not silence. -/
theorem detach_reacquire_reads_through (bs : Nat) (env : CallbackEnv)
    (s : AudioState)
    (hbs : 0 < bs)
    (hlock : s.audioThreadLock = false)
    (hback : s.audioBackOffCounter = 0)
    (hdet : s.audioBufferResampled = some 0)
    (haddr : env.hasGetBufAddr = true)
    (hheap : env.hasHeap16 = true)
    (hgwp : env.hasGetWritePos = true)
    (h12 : env.wp1 = env.wp2)
    (hne : env.wp2 ≠ s.audioReadPosition)
    (hrp : s.audioReadPosition + 1 < RING_BUFFER_SIZE) :
    (onAudioProcess RING_BUFFER_SIZE bs env s).state.audioBufferResampled =
      some RING_BUFFER_SIZE ∧
    (onAudioProcess RING_BUFFER_SIZE bs env s).outL.head? =
      some (Sample.raw (env.mem s.audioReadPosition)) ∧
    (∀ x : Int, Sample.raw x ≠ Sample.silence) := by
  obtain ⟨hL, -, -, -, -, -, hv, -⟩ :=
    onAudioProcess_normal_path RING_BUFFER_SIZE bs env s hlock hback h12
  have hmv : midView RING_BUFFER_SIZE env s = some RING_BUFFER_SIZE := by
    unfold midView
    rw [hdet, haddr, hheap]
    simp
  have hmw : midWritePos env s = env.wp2 := by
    unfold midWritePos
    rw [hgwp]
    simp
  have hco := consumeOne_reads RING_BUFFER_SIZE env.wp2 RING_BUFFER_SIZE env.mem
    { rp := s.audioReadPosition, skip := s.audioSkipCount, clip := s.clipCount,
      hadUnderrun := false } hne hrp
  refine ⟨?_, ?_, fun x => by simp⟩
  · rw [hv, hmv]
  · rw [hL]
    unfold loopRun
    rw [hmv, hmw, List.head?_map, consumeLoop_head _ _ _ _ _ _ hbs, hco.1]
    rfl

/-- C6 witness: the re-acquisition theorem evaluated at a concrete callback with
a detached view, data at the cursor, and sample value 7. -/
theorem detach_reacquire_reads_through_witness :
    ((onAudioProcess RING_BUFFER_SIZE 1 sampleSevenEnv
        detachedState).state.audioBufferResampled = some RING_BUFFER_SIZE ∧
    (onAudioProcess RING_BUFFER_SIZE 1 sampleSevenEnv detachedState).outL.head? =
      some (Sample.raw (sampleSevenEnv.mem detachedState.audioReadPosition)) ∧
    (∀ x : Int, Sample.raw x ≠ Sample.silence)) :=
  detach_reacquire_reads_through 1 sampleSevenEnv detachedState
    (by decide) rfl rfl rfl rfl rfl rfl rfl (by decide) (by decide)

/-- C6 counterexample: at that same detached-view callback the output is the
buffered sample, not silence — refuting both that every output sample of the
callback is silence and that nothing precedes re-acquisition. -/
theorem detach_reacquire_cex :
    detachedState.audioBufferResampled = some 0 ∧
    (onAudioProcess RING_BUFFER_SIZE 1 sampleSevenEnv detachedState).outL =
      [Sample.raw 7] ∧
    (onAudioProcess RING_BUFFER_SIZE 1 sampleSevenEnv detachedState).outL ≠
      List.replicate 1 Sample.silence := by
  obtain ⟨hL, -, -, -, -, -, -, -⟩ :=
    onAudioProcess_normal_path RING_BUFFER_SIZE 1 sampleSevenEnv detachedState
      rfl rfl rfl
  have h0 : (onAudioProcess RING_BUFFER_SIZE 1 sampleSevenEnv detachedState).outL =
      [Sample.raw 7] := by
    rw [hL]
    unfold loopRun midView midWritePos
    simp [consumeLoop_one, consumeOne, readView, advanceRead, RING_BUFFER_SIZE,
      baseState, baseEnv, sampleSevenEnv, detachedState]
  exact ⟨rfl, h0, by rw [h0]; decide⟩

/-- C7: across any sequence of callback invocations in which the core's
write-cursor accessor always returns a value in `[0, C)`, both cursors stay in
`[0, C)` (they are naturals, so nonnegative), the derived fill level stays in
`[0, 1]`, and advancing the read cursor by 2 when it equals `C - 2` wraps it to
0. -/
theorem cursor_invariants (bs : Nat) (envs : List CallbackEnv) (s : AudioState)
    (hinv : CursorInv RING_BUFFER_SIZE s)
    (hbound : ∀ env ∈ envs,
      env.wp1 < RING_BUFFER_SIZE ∧ env.wp2 < RING_BUFFER_SIZE) :
    CursorInv RING_BUFFER_SIZE (runCallbacks RING_BUFFER_SIZE bs s envs).1 ∧
    0 ≤ getBufferFill RING_BUFFER_SIZE (runCallbacks RING_BUFFER_SIZE bs s envs).1 ∧
    getBufferFill RING_BUFFER_SIZE (runCallbacks RING_BUFFER_SIZE bs s envs).1 ≤ 1 ∧
    advanceRead RING_BUFFER_SIZE (RING_BUFFER_SIZE - 2) = 0 := by
  have hC : 0 < RING_BUFFER_SIZE := by decide
  have h := runCallbacks_inv RING_BUFFER_SIZE bs hC envs s hinv hbound
  have hfb := getBufferFill_bounds RING_BUFFER_SIZE _ hC h.1 h.2
  exact ⟨h, hfb.1, hfb.2, by decide⟩

/-- C7 witness: the invariant theorem evaluated for a concrete callback
sequence of length one. -/
theorem cursor_invariants_witness :
    CursorInv RING_BUFFER_SIZE
      (runCallbacks RING_BUFFER_SIZE 4 baseState [baseEnv]).1 ∧
    0 ≤ getBufferFill RING_BUFFER_SIZE
      (runCallbacks RING_BUFFER_SIZE 4 baseState [baseEnv]).1 ∧
    getBufferFill RING_BUFFER_SIZE
      (runCallbacks RING_BUFFER_SIZE 4 baseState [baseEnv]).1 ≤ 1 ∧
    advanceRead RING_BUFFER_SIZE (RING_BUFFER_SIZE - 2) = 0 :=
  cursor_invariants 4 [baseEnv] baseState (by decide)
    (by
      intro e he
      rw [List.mem_singleton] at he
      subst he
      exact ⟨by decide, by decide⟩)

theorem c3envs_length : ∀ (n k : Nat), (c3envs k n).length = n := by
  intro n
  induction n with
  | zero => intro k; rfl
  | succ n ih =>
    intro k
    rw [show c3envs k (n + 1) = c3env k :: c3envs (k + 1) n from rfl]
    simp [ih]

theorem c3envs_now : ∀ (n k : Nat), k + n ≤ 46 →
    ∀ env ∈ c3envs k n, env.now ≤ 1000 := by
  intro n
  induction n with
  | zero => intro k _ env h; exact absurd h (List.not_mem_nil env)
  | succ n ih =>
    intro k h env hmem
    rw [show c3envs k (n + 1) = c3env k :: c3envs (k + 1) n from rfl] at hmem
    rcases List.mem_cons.mp hmem with he | he
    · subst he
      unfold c3env
      dsimp only
      have hkq : (k : Rat) ≤ 45 := by exact_mod_cast (by omega : k ≤ 45)
      linarith
    · exact ih (k + 1) (by omega) env he

theorem c3_fill (k : Nat) (s : AudioState) (hs : C3Inv k s) :
    getBufferFill RING_BUFFER_SIZE s < (0.15 : Rat) := by
  obtain ⟨-, -, -, hrp, hwp, -, -, -⟩ := hs
  unfold getBufferFill
  dsimp only
  rw [hwp, hrp]
  have hd : ((2 * k + 2 : Nat) : Int) - ((2 * k : Nat) : Int) = 2 := by
    push_cast
    ring
  rw [hd]
  norm_num [RING_BUFFER_SIZE]

theorem c3_step (k : Nat) (hk : k ≤ 44) (s : AudioState) (hs : C3Inv k s) :
    (onAudioProcess RING_BUFFER_SIZE 1 (c3env k) s).steps = 2 ∧
    C3Inv (k + 1) (onAudioProcess RING_BUFFER_SIZE 1 (c3env k) s).state := by
  obtain ⟨hlock, hback, hfcc, hrp, hwp, hview, hlfr, hlat⟩ := hs
  have hkq : (k : Rat) ≤ 44 := by exact_mod_cast hk
  have hwin : (c3env k).now ≤ s.lastFrameReset + 1000 := by
    rw [hlfr]; unfold c3env; dsimp only; linarith
  have hlatw : (c3env k).now ≤ s.lastAudioTime + 10000 := by
    rw [hlat]; unfold c3env; dsimp only; linarith
  have hfill := c3_fill k s ⟨hlock, hback, hfcc, hrp, hwp, hview, hlfr, hlat⟩
  have hsteps := onAudioProcess_steps_two RING_BUFFER_SIZE 1 (c3env k) s hlock hback
    hwin rfl hfill (by rw [hfcc]; omega)
  obtain ⟨hl2, hlfr2, hfc2, -, -, hlat2⟩ :=
    onAudioProcess_account RING_BUFFER_SIZE 1 (c3env k) s hlock hwin
  obtain ⟨-, -, hrp2, -, -, hbo2, hv2, hw2⟩ :=
    onAudioProcess_normal_path RING_BUFFER_SIZE 1 (c3env k) s hlock hback rfl
  have hmw : midWritePos (c3env k) s = 2 * k + 4 := rfl
  have hmv : midView RING_BUFFER_SIZE (c3env k) s = some RING_BUFFER_SIZE := by
    unfold midView
    rw [hview]
    norm_num [RING_BUFFER_SIZE]
  have hl1 : (loopRun RING_BUFFER_SIZE 1 (c3env k) s).1.rp = 2 * (k + 1) ∧
      (loopRun RING_BUFFER_SIZE 1 (c3env k) s).1.hadUnderrun = false := by
    unfold loopRun
    rw [hmw, hmv, consumeLoop_one]
    rw [consumeOne_consume RING_BUFFER_SIZE (2 * k + 4) RING_BUFFER_SIZE
      (c3env k).mem _ (by dsimp only; rw [hrp]; omega)]
    constructor
    · dsimp only
      rw [hrp]
      unfold advanceRead
      rw [if_neg (by simp only [RING_BUFFER_SIZE]; omega)]
      omega
    · rfl
  refine ⟨hsteps, hl2, ?_, ?_, ?_, ?_, ?_, ?_, ?_⟩
  · rw [hbo2, hl1.2]
    simp
  · rw [hfc2, hfcc, hsteps]
    omega
  · rw [hrp2, hl1.1]
  · rw [hw2, hmw]
    omega
  · rw [hv2, hmv]
  · rw [hlfr2, hlfr]
  · rw [hlat2 hlatw, hlat]

theorem c3_last_step (s : AudioState) (hs : C3Inv 45 s) :
    (onAudioProcess RING_BUFFER_SIZE 1 (c3env 45) s).steps = 1 := by
  obtain ⟨hlock, hback, hfcc, -, -, -, hlfr, -⟩ := hs
  have hwin : (c3env 45).now ≤ s.lastFrameReset + 1000 := by
    rw [hlfr]; unfold c3env; dsimp only; norm_num
  obtain ⟨-, -, -, hle, h90, -⟩ :=
    onAudioProcess_account RING_BUFFER_SIZE 1 (c3env 45) s hlock hwin
  have hpos := onAudioProcess_steps_pos RING_BUFFER_SIZE 1 (c3env 45) s hlock hback rfl
  rcases Nat.lt_or_ge (onAudioProcess RING_BUFFER_SIZE 1 (c3env 45) s).steps 2 with
    h | h
  · omega
  · have h2 := le_antisymm hle h
    have h3 := h90 h2
    rw [hfcc] at h3
    omega

theorem c3_run (n : Nat) : ∀ (k : Nat) (s : AudioState), k + n ≤ 45 → C3Inv k s →
    (runCallbacks RING_BUFFER_SIZE 1 s (c3envs k n)).2 = 2 * n ∧
    C3Inv (k + n) (runCallbacks RING_BUFFER_SIZE 1 s (c3envs k n)).1 := by
  induction n with
  | zero => intro k s _ hinv; exact ⟨rfl, hinv⟩
  | succ n ih =>
    intro k s h hinv
    have hk : k ≤ 44 := by omega
    obtain ⟨hsteps, hinv2⟩ := c3_step k hk s hinv
    have hrec := ih (k + 1) _ (by omega) hinv2
    rw [show c3envs k (n + 1) = c3env k :: c3envs (k + 1) n from rfl,
      runCallbacks_cons]
    constructor
    · dsimp only
      rw [hsteps, hrec.1]
      ring
    · dsimp only
      have h2 := hrec.2
      rw [show k + 1 + n = k + (n + 1) by omega] at h2
      exact h2

theorem c3_total (n : Nat) : ∀ (k : Nat) (s : AudioState), k + n = 46 → C3Inv k s →
    (runCallbacks RING_BUFFER_SIZE 1 s (c3envs k n)).2 = 91 - 2 * k := by
  induction n with
  | zero =>
    intro k s h _
    show 0 = 91 - 2 * k
    omega
  | succ n ih =>
    intro k s h hinv
    rw [show c3envs k (n + 1) = c3env k :: c3envs (k + 1) n from rfl,
      runCallbacks_cons]
    dsimp only
    by_cases hk : k ≤ 44
    · obtain ⟨hsteps, hinv2⟩ := c3_step k hk s hinv
      rw [hsteps, ih (k + 1) _ (by omega) hinv2]
      omega
    · have hk45 : k = 45 := by omega
      subst hk45
      have hn0 : n = 0 := by omega
      subst hn0
      rw [c3_last_step s hinv]
      show 1 + 0 = 91 - 2 * 45
      omega

/-- C3 (amended): within one 1-second accounting window (no reset elapsing
during the listed callbacks, step counter starting at 0), the catch-up cap
bounds the total number of steps by (number of callbacks) + 45, and by the
90-step cap whenever the window contains at most 45 callbacks.  Because the
baseline step is unconditional, a window containing more than 45 low-fill
callbacks can exceed 90 total steps. -/
theorem stepcap_window_bound (C bs : Nat) (envs : List CallbackEnv)
    (s : AudioState)
    (hlock : s.audioThreadLock = false)
    (hfcc : s.frameCallCount = 0)
    (hwin : ∀ env ∈ envs, env.now ≤ s.lastFrameReset + 1000) :
    (runCallbacks C bs s envs).2 ≤ envs.length + 45 ∧
    (envs.length ≤ 45 → (runCallbacks C bs s envs).2 ≤ 90) := by
  have h := runCallbacks_fcc_bound C bs envs s 0 hlock hwin (by omega)
  rw [hfcc] at h
  constructor
  · omega
  · intro hl
    omega

/-- C3 witness: the window bound evaluated for a single concrete callback. -/
theorem stepcap_window_bound_witness :
    (runCallbacks RING_BUFFER_SIZE 4 baseState [baseEnv]).2 ≤ [baseEnv].length + 45 ∧
    ([baseEnv].length ≤ 45 →
      (runCallbacks RING_BUFFER_SIZE 4 baseState [baseEnv]).2 ≤ 90) :=
  stepcap_window_bound RING_BUFFER_SIZE 4 [baseEnv] baseState rfl rfl
    (by
      intro e he
      rw [List.mem_singleton] at he
      subst he
      norm_num [baseEnv, baseState])

/-- C3 counterexample: 46 callbacks inside one 1-second accounting window, each
entered with fill level 2/64000 < 0.15 and suffering no underrun, execute 91
simulation steps in that window — more than the configured cap of 90.  The
unconditional baseline step is not limited by the cap; only the catch-up step
is. -/
theorem stepcap_window_cex :
    C3Inv 0 c3start ∧
    (∀ env ∈ c3envs 0 46, env.now ≤ c3start.lastFrameReset + 1000) ∧
    (∀ m : Nat, m ≤ 45 →
      getBufferFill RING_BUFFER_SIZE
        (runCallbacks RING_BUFFER_SIZE 1 c3start (c3envs 0 m)).1 < (0.15 : Rat)) ∧
    (c3envs 0 46).length = 46 ∧
    (runCallbacks RING_BUFFER_SIZE 1 c3start (c3envs 0 46)).2 = 91 ∧
    90 < (runCallbacks RING_BUFFER_SIZE 1 c3start (c3envs 0 46)).2 := by
  have hinv0 : C3Inv 0 c3start := ⟨rfl, rfl, rfl, rfl, rfl, rfl, rfl, rfl⟩
  have htot := c3_total 46 0 c3start rfl hinv0
  refine ⟨hinv0, ?_, ?_, c3envs_length 46 0, ?_, ?_⟩
  · intro env he
    have h := c3envs_now 46 0 (by omega) env he
    show env.now ≤ (0 : Rat) + 1000
    linarith
  · intro m hm
    have h := c3_run m 0 c3start (by omega) hinv0
    have h2 := h.2
    rw [Nat.zero_add] at h2
    exact c3_fill m _ h2
  · rw [htot]
  · rw [htot]
    omega

/-- C10 witness: the volume theorem evaluated at a gain node with `v = 2`. -/
theorem volume_clamped_gain_raw_stored_witness :
    ({ hasGainNode := true, gainValue := 0, configVolume := 0 } : GainState).hasGainNode
        = true ∧
    ((setVolume { hasGainNode := true, gainValue := 0, configVolume := 0 } 2).gainValue
        = min 1 (max 0 2) ∧
    getVolume (setVolume { hasGainNode := true, gainValue := 0, configVolume := 0 } 2)
        = 2 ∧
    (((2 : Rat) < 0 ∨ (1 : Rat) < 2) →
      getVolume (setVolume { hasGainNode := true, gainValue := 0, configVolume := 0 } 2)
        ≠ (setVolume { hasGainNode := true, gainValue := 0, configVolume := 0 } 2).gainValue)) :=
  ⟨rfl, volume_clamped_gain_raw_stored
    { hasGainNode := true, gainValue := 0, configVolume := 0 } 2 rfl⟩

end N64Audio
